import Mathlib

/-!
Verification development for the tunnel-project reverse-tunnel server
(`src/server/server.js`).  The definitions below are a shallow embedding of
the server's data model and operations: JavaScript `Map`s become association
lists, timestamps become epoch milliseconds (`Nat`), and the asynchronous
handlers become explicit state-transition functions whose step order follows
the single-threaded JavaScript event loop.  The server process is assumed to
run with its local timezone set to UTC, as the spec requires for hour
truncation.
-/

namespace Tunnel

/-! ### Association-list maps (JavaScript `Map` semantics) -/

/-- Lookup in an association list, mirroring `Map.get`. -/
def alookup {α : Type} (l : List (String × α)) (k : String) : Option α :=
  match l with
  | [] => none
  | (k2, v) :: rest => if k2 = k then some v else alookup rest k

/-- Update-or-append, mirroring `Map.set` (updates the existing entry in
place, else appends at the end, preserving insertion order). -/
def aset {α : Type} (l : List (String × α)) (k : String) (v : α) :
    List (String × α) :=
  match l with
  | [] => [(k, v)]
  | (k2, v2) :: rest => if k2 = k then (k, v) :: rest else (k2, v2) :: aset rest k v

/-- Removal, mirroring `Map.delete`. -/
def adelete {α : Type} (l : List (String × α)) (k : String) :
    List (String × α) :=
  match l with
  | [] => []
  | (k2, v2) :: rest => if k2 = k then rest else (k2, v2) :: adelete rest k

/-! ### Strings and JavaScript `String.prototype.split` -/

/-- Split a character list at every occurrence of `c` (no limit yet). -/
def splitChar (c : Char) : List Char → List Char → List (List Char)
  | [], acc => [acc.reverse]
  | x :: xs, acc =>
      if x = c then acc.reverse :: splitChar c xs []
      else splitChar c xs (x :: acc)

/-- JavaScript `s.split(sep, limit)`: split at every separator, then keep only
the first `limit` pieces (the `limit` argument truncates the result array, it
does not bound the number of splits performed). -/
def jsSplit (s : String) (c : Char) (limit : Nat) : List String :=
  ((splitChar c s.data []).map String.mk).take limit

/-- JavaScript `s.split(sep)` with no limit. -/
def jsSplitAll (s : String) (c : Char) : List String :=
  (splitChar c s.data []).map String.mk

/-! ### Calendar arithmetic and `Date.prototype.toISOString`

Timestamps are epoch milliseconds.  `civilFromDays` is the standard
days-since-epoch → Gregorian conversion used to render ISO-8601 strings. -/

/-- Gregorian `(year, month, day)` from days since 1970-01-01 (days ≥ 0). -/
def civilFromDays (z0 : Nat) : Nat × Nat × Nat :=
  let z := z0 + 719468
  let era := z / 146097
  let doe := z % 146097
  let yoe := (doe - doe / 1460 + doe / 36524 - doe / 146096) / 365
  let y := yoe + era * 400
  let doy := doe - (365 * yoe + yoe / 4 - yoe / 100)
  let mp := (5 * doy + 2) / 153
  let d := doy - (153 * mp + 2) / 5 + 1
  let m := if mp < 10 then mp + 3 else mp - 9
  let y := if m ≤ 2 then y + 1 else y
  (y, m, d)

/-- Days since 1970-01-01 of a Gregorian `(year, month, day)` (for dates at or
after 1970-03-01; all dates in this development are in 2025). -/
def daysFromCivil (y m d : Nat) : Nat :=
  let y2 := if m ≤ 2 then y - 1 else y
  let era := y2 / 400
  let yoe := y2 % 400
  let mp := if m > 2 then m - 3 else m + 9
  let doy := (153 * mp + 2) / 5 + d - 1
  let doe := yoe * 365 + yoe / 4 - yoe / 100 + doy
  era * 146097 + doe - 719468

/-- ASCII decimal digit. -/
def digitChar (n : Nat) : Char := Char.ofNat (48 + n % 10)

/-- Zero-padded 2-digit decimal rendering. -/
def pad2 (n : Nat) : List Char := [digitChar (n / 10), digitChar n]

/-- Zero-padded 3-digit decimal rendering. -/
def pad3 (n : Nat) : List Char := [digitChar (n / 100), digitChar (n / 10), digitChar n]

/-- Zero-padded 4-digit decimal rendering. -/
def pad4 (n : Nat) : List Char :=
  [digitChar (n / 1000), digitChar (n / 100), digitChar (n / 10), digitChar n]

/-- JavaScript `Date.prototype.toISOString` for a non-negative epoch-ms
timestamp with a 4-digit year: `YYYY-MM-DDTHH:mm:ss.sssZ`. -/
def toISOString (t : Nat) : String :=
  let days := t / 86400000
  let msOfDay := t % 86400000
  let (y, m, d) := civilFromDays days
  String.mk (pad4 y ++ '-' :: pad2 m ++ '-' :: pad2 d ++ 'T' :: pad2 (msOfDay / 3600000)
    ++ ':' :: pad2 (msOfDay % 3600000 / 60000) ++ ':' :: pad2 (msOfDay % 60000 / 1000)
    ++ '.' :: pad3 (msOfDay % 1000) ++ ['Z'])

/-- Parse a list of ASCII digits as a decimal number; `none` on a non-digit
or on an empty list. -/
def parseDigits : List Char → Option Nat
  | [] => none
  | cs => cs.foldl (fun acc c =>
      match acc with
      | none => none
      | some n => if '0' ≤ c ∧ c ≤ '9' then some (n * 10 + (c.toNat - 48)) else none)
      (some 0)

/-- JavaScript `new Date(string).getTime()`, modelled from the ECMA-262 Date
Time String Format on the forms that arise in this development:
`YYYY`, `YYYY-MM`, `YYYY-MM-DD` (all taken as UTC midnight of the named
date).  Any other input yields `none` (an Invalid Date). -/
def jsNewDate (s : String) : Option Nat :=
  match (splitChar '-' s.data []).map parseDigits with
  | [some y] =>
      if s.data.length = 4 then some (daysFromCivil y 1 1 * 86400000) else none
  | [some y, some m] =>
      if 1 ≤ m ∧ m ≤ 12 then some (daysFromCivil y m 1 * 86400000) else none
  | [some y, some m, some d] =>
      if 1 ≤ m ∧ m ≤ 12 ∧ 1 ≤ d ∧ d ≤ 31 then some (daysFromCivil y m d * 86400000)
      else none
  | _ => none

/-! ### Metric records (the telemetry pipeline's unit of data) -/

/-- One captured metric, as built in `storeRespData`.  `country` is the result
of `getCountryFromIP` (`none` models a null/undefined country; the
`updateHourlyStats` aggregation skips falsy countries).  `timestamp` is epoch
milliseconds of `new Date()` at finalization. -/
structure Metric where
  tunnelId : String
  path : String
  method : String
  country : Option String
  statusCode : Nat
  responseTime : Nat
  requestSize : Nat
  responseSize : Nat
  clientIp : String
  timestamp : Nat
  deriving Repr, DecidableEq

/-- The `getHourKey` helper: copy the date, `setMinutes(0, 0, 0)` (zeroing
minutes, seconds and milliseconds but not the hour; server timezone UTC), and
render with `toISOString`. -/
def getHourKey (t : Nat) : String :=
  toISOString (t - t % 3600000)

/-- Truncation of an epoch-ms timestamp to the hour (UTC), the `hour` the
spec says every `HourlyStats` row carries. -/
def truncToHour (t : Nat) : Nat := t - t % 3600000

/-- The grouping key computed in `processMetricsBuffer`:
`` `${metric.tunnelId}-${getHourKey(metric.timestamp)}` ``. -/
def hourKeyOf (m : Metric) : String :=
  m.tunnelId ++ "-" ++ getHourKey m.timestamp

/-- Append `m` to the group keyed `k`, creating the group at the end if new
(JavaScript `Map` insertion order). -/
def pushGroup (groups : List (String × List Metric)) (k : String) (m : Metric) :
    List (String × List Metric) :=
  match groups with
  | [] => [(k, [m])]
  | (k2, ms) :: rest =>
      if k2 = k then (k2, ms ++ [m]) :: rest else (k2, ms) :: pushGroup rest k m

/-- The grouping loop of `processMetricsBuffer`: fold the buffer into hourly
groups keyed by `hourKeyOf`. -/
def groupMetrics (buffer : List Metric) : List (String × List Metric) :=
  buffer.foldl (fun gs m => pushGroup gs (hourKeyOf m) m) []

/-! ### Aggregation inside `updateHourlyStats` -/

/-- One step of the counting loops in `updateHourlyStats`
(`counts.set(key, (counts.get(key) || 0) + 1)`). -/
def countStep (acc : List (String × Nat)) (k : String) : List (String × Nat) :=
  match alookup acc k with
  | some n => aset acc k (n + 1)
  | none => aset acc k 1

/-- Counting loop over a list of keys (a JavaScript `Map` used as a counter,
insertion-ordered). -/
def countBy (keys : List String) : List (String × Nat) :=
  keys.foldl countStep []

/-- Insert into a count-descending list (`Array.prototype.sort` with
comparator `(a, b) => b - a` on the counts; stable, so an element is placed
after earlier elements with an equal or larger count). -/
def insertDesc (x : String × Nat) : List (String × Nat) → List (String × Nat)
  | [] => [x]
  | y :: ys => if x.2 ≤ y.2 then y :: insertDesc x ys else x :: y :: ys

/-- Sort count pairs descending by count. -/
def sortDesc (l : List (String × Nat)) : List (String × Nat) :=
  match l with
  | [] => []
  | x :: xs => insertDesc x (sortDesc xs)

/-- JavaScript truthiness test for the country field: `null`, `undefined` and
the empty string are falsy and skipped by the `topCountries` loop. -/
def countryKey (m : Metric) : Option String :=
  match m.country with
  | none => none
  | some c => if c = "" then none else some c

/-- The `topPaths` mapping of `updateHourlyStats`: count `"METHOD path"`
keys, sort descending by count, keep the first 10. -/
def topPathsOf (metrics : List Metric) : List (String × Nat) :=
  (sortDesc (countBy (metrics.map fun m => m.method ++ " " ++ m.path))).take 10

/-- The `topCountries` mapping of `updateHourlyStats`: count truthy countries
only, sort descending by count, keep the first 10. -/
def topCountriesOf (metrics : List Metric) : List (String × Nat) :=
  (sortDesc (countBy (metrics.filterMap countryKey))).take 10

/-- The `statusCodes` mapping of `updateHourlyStats`: a plain histogram of
the decimal renderings of the status codes (`Object.fromEntries(statusCounts)`
with no sort and no `slice`). -/
def statusCodesOf (metrics : List Metric) : List (String × Nat) :=
  countBy (metrics.map fun m => toString m.statusCode)

/-- The row data `updateHourlyStats` passes to `prisma.hourlyStats.upsert`
(the floating-point `avgResponseTime` is represented by the exact pair of its
numerator `sumResponseTime` and the group size).  `tunnelId` and `hour` are
recovered from the group key by `hourKey.split('-', 2)`; an unparseable hour
string is an Invalid Date (`none`). -/
structure HourlyUpsert where
  tunnelId : String
  hour : Option Nat
  totalRequests : Nat
  successRequests : Nat
  errorRequests : Nat
  sumResponseTime : Nat
  totalBandwidth : Nat
  uniqueIps : Nat
  topPaths : List (String × Nat)
  topCountries : List (String × Nat)
  statusCodes : List (String × Nat)
  deriving Repr, DecidableEq

/-- The body of `updateHourlyStats(hourKey, metrics)` up to the database
call: destructure `hourKey.split('-', 2)` into `tunnelId` and `hourString`,
take `hour = new Date(hourString)`, and aggregate the group. -/
def updateHourlyStats (hourKey : String) (metrics : List Metric) : HourlyUpsert :=
  let parts := jsSplit hourKey '-' 2
  let tunnelId := parts.getD 0 ""
  let hourString := parts.getD 1 ""
  { tunnelId := tunnelId
    hour := jsNewDate hourString
    totalRequests := metrics.length
    successRequests := (metrics.filter fun m => m.statusCode < 400).length
    errorRequests := metrics.length - (metrics.filter fun m => m.statusCode < 400).length
    sumResponseTime := (metrics.map Metric.responseTime).sum
    totalBandwidth := (metrics.map fun m => m.requestSize + m.responseSize).sum
    uniqueIps := (metrics.map Metric.clientIp).dedup.length
    topPaths := topPathsOf metrics
    topCountries := topCountriesOf metrics
    statusCodes := statusCodesOf metrics }

/-! ### The flush (`processMetricsBuffer`) -/

/-- Result of one flush: the upserts attempted (in group order, each tagged
with whether its database write succeeded), and the buffer and unique-IP map
left behind. -/
structure FlushResult where
  upserts : List (HourlyUpsert × Bool)
  buffer : List Metric
  uniqueIps : List (String × List String)
  deriving Repr, DecidableEq

/-- The flush `processMetricsBuffer`, with database failures abstracted by
`dbOk` (which upsert keys the database accepts; `updateHourlyStats` catches
and logs its own errors, so a failed group never stops the loop).  After the
per-group loop the source runs `metricsBuffer.length = 0` and
`uniqueIpsBuffer.clear()` unconditionally. -/
def processMetricsBuffer (buffer : List Metric)
    (uniqueIps : List (String × List String)) (dbOk : String → Bool) : FlushResult :=
  if buffer = [] then
    { upserts := [], buffer := buffer, uniqueIps := uniqueIps }
  else
    let groups := groupMetrics buffer
    { upserts := groups.map fun g => (updateHourlyStats g.1 g.2, dbOk g.1)
      buffer := []
      uniqueIps := [] }

/-! ### Live stats (`updateLiveStats`) -/

/-- One `LiveStats` row. -/
structure LiveStatsRow where
  tunnelId : String
  requestsLast5Min : Nat
  requestsLast1Hour : Nat
  avgResponseTime : Nat
  errorRate : Nat
  lastUpdated : Nat
  deriving Repr, DecidableEq

/-- The `prisma.liveStats.upsert` performed by `updateLiveStats(tunnelId,
metric)`: the create branch starts the counters at 1 (`errorRate` at 1 or 0
by `metric.statusCode >= 400`); the update branch increments the two request
counters, overwrites `avgResponseTime` with the metric's response time
(last-wins), increments `errorRate` only for error status codes, and stamps
`lastUpdated` with the current time. -/
def updateLiveStats (existing : Option LiveStatsRow) (tunnelId : String)
    (m : Metric) (now : Nat) : LiveStatsRow :=
  match existing with
  | none =>
      { tunnelId := tunnelId
        requestsLast5Min := 1
        requestsLast1Hour := 1
        avgResponseTime := m.responseTime
        errorRate := if m.statusCode ≥ 400 then 1 else 0
        lastUpdated := now }
  | some r =>
      { r with
        requestsLast5Min := r.requestsLast5Min + 1
        requestsLast1Hour := r.requestsLast1Hour + 1
        avgResponseTime := m.responseTime
        errorRate := if m.statusCode ≥ 400 then r.errorRate + 1 else r.errorRate
        lastUpdated := now }

/-! ### Agent registry and session lifecycle (`wss.on('connection')`)

A live session is identified by a `Nat` (the identity of its WebSocket
object).  The registry state carries the module-level maps the handlers
touch, the persisted `Tunnel.isActive` flag, and an append-only log of the
close frames the server has issued (`(session, closeCode)` pairs). -/

structure RegistryState where
  agents : List (String × Nat)
  tunnelActive : List (String × Bool)
  pendingResponses : List (String × Nat)
  fulfilled : List (String × Nat)
  closes : List (Nat × Nat)
  deriving Repr, DecidableEq

/-- The success path of the `register` handler, restricted to its effects on
the registry state: if a session already holds `wsTunnelId`, close it with
code 4002 and delete the map entry; the tunnel upsert sets `isActive = true`;
finally `agents.set(wsTunnelId, ws)` installs the new session. -/
def registerStep (s : RegistryState) (sid : Nat) (tid : String) : RegistryState :=
  let s1 := match alookup s.agents tid with
    | some oldSid =>
        { s with closes := s.closes ++ [(oldSid, 4002)], agents := adelete s.agents tid }
    | none => s
  { s1 with
    tunnelActive := aset s1.tunnelActive tid true
    agents := aset s1.agents tid sid }

/-- The `ws.on('close')` handler of a session whose closure variables hold
`wsTunnelId = tid` and a non-null `tunnelRecord`: it marks the tunnel
inactive in the database and runs `agents.delete(wsTunnelId)`.  It does not
compare the closing socket with the currently registered one, and it does not
touch `pendingResponses`. -/
def closeStep (s : RegistryState) (tid : String) : RegistryState :=
  { s with
    tunnelActive := aset s.tunnelActive tid false
    agents := adelete s.agents tid }

/-! ### Request multiplexer (correlation map and the 10 s deadline) -/

/-- The literal passed to `setTimeout` when a request is forwarded to an
agent. -/
def requestTimeoutMs : Nat := 10000

/-- Multiplexer state: the correlation map `requestId → responder` (the
responder identified by a `Nat`), and an append-only log of the fulfilments
written to HTTP responders as `(requestId, statusCode)`. -/
structure MuxState where
  pending : List (String × Nat)
  fulfilled : List (String × Nat)
  deriving Repr, DecidableEq

/-- Multiplexer events: the 10 s timer for a request fires, or a `response`
frame arrives from the agent. -/
inductive MuxEvent where
  | timeoutFire (rid : String)
  | responseFrame (rid : String) (status : Nat)
  deriving Repr, DecidableEq

/-- One multiplexer event, as handled by the source: the timer callback
checks `pendingResponses.has(requestId)` and, if present, writes a 504 and
deletes the entry (otherwise does nothing); the `response` handler looks the
id up and, if present, writes the frame's status and deletes the entry,
otherwise logs a warning and discards the frame. -/
def muxStep (s : MuxState) : MuxEvent → MuxState
  | .timeoutFire rid =>
      match alookup s.pending rid with
      | some _ =>
          { pending := adelete s.pending rid, fulfilled := s.fulfilled ++ [(rid, 504)] }
      | none => s
  | .responseFrame rid status =>
      match alookup s.pending rid with
      | some _ =>
          { pending := adelete s.pending rid, fulfilled := s.fulfilled ++ [(rid, status)] }
      | none => s

/-- Run a sequence of multiplexer events. -/
def muxRun (s : MuxState) : List MuxEvent → MuxState
  | [] => s
  | e :: es => muxRun (muxStep s e) es

/-- Number of fulfilments written for a given request id. -/
def fulfilCount (rid : String) (log : List (String × Nat)) : Nat :=
  (log.filter fun p => p.1 = rid).length

/-! ### Public HTTP front-end dispatch (`app.use`) -/

/-- A `Tunnel` database row (the fields the dispatch path reads). -/
structure TunnelRecord where
  id : String
  name : String
  subdomain : String
  isActive : Bool
  lastConnected : Option Nat
  lastDisconnected : Option Nat
  deriving Repr, DecidableEq

/-- First row satisfying a predicate (`prisma...findUnique` / `findFirst`). -/
def findFirstTunnel (p : TunnelRecord → Bool) : List TunnelRecord → Option TunnelRecord
  | [] => none
  | t :: ts => if p t then some t else findFirstTunnel p ts

/-- The `getTunnelByIdentifier` helper: first try `subdomain == identifier`,
then `id == identifier`. -/
def getTunnelByIdentifier (db : List TunnelRecord) (identifier : String) :
    Option TunnelRecord :=
  match findFirstTunnel (fun t => t.subdomain = identifier) db with
  | some t => some t
  | none => findFirstTunnel (fun t => t.id = identifier) db

/-- Join path segments with slashes (`rest.join('/')`). -/
def joinSlash : List String → String
  | [] => ""
  | [x] => x
  | x :: xs => x ++ "/" ++ joinSlash xs

/-- Outcome of the front-end dispatch, carrying exactly the data each
response body exposes. -/
inductive DispatchResult where
  | badRequest
  | tunnelNotFound
  | tunnelInactive (id name subdomain : String)
      (lastConnected lastDisconnected : Option Nat)
  | tunnelNotConnected
  | forwarded (tunnelId targetPath : String)
  deriving Repr, DecidableEq

/-- The catch-all `app.use` handler up to the hand-off to the agent:
split the path on `/` and drop empty parts; empty → 400; resolve the tunnel
(404 when absent); inactive → 503 with the last-connected and
last-disconnected timestamps in the body; no live agent session → 502; otherwise forward with
`targetPath = '/' + rest.join('/')`. -/
def dispatch (db : List TunnelRecord) (agents : List (String × Nat))
    (reqPath : String) : DispatchResult :=
  let pathParts := (jsSplitAll reqPath '/').filter fun part => part ≠ ""
  match pathParts with
  | [] => .badRequest
  | identifier :: rest =>
    match getTunnelByIdentifier db identifier with
    | none => .tunnelNotFound
    | some tunnel =>
      if tunnel.isActive = false then
        .tunnelInactive tunnel.id tunnel.name tunnel.subdomain
          tunnel.lastConnected tunnel.lastDisconnected
      else
        match alookup agents tunnel.id with
        | none => .tunnelNotConnected
        | some _ => .forwarded tunnel.id ("/" ++ joinSlash rest)

/-! ### Subdomain resolution on registration (`register` handler) -/

/-- ASCII lowercasing, the effect of `String.prototype.toLowerCase` on the
ASCII identifiers this server handles. -/
def charToLower (c : Char) : Char :=
  if 'A' ≤ c ∧ c ≤ 'Z' then Char.ofNat (c.toNat + 32) else c

/-- Character class kept by `replace(/[^a-z0-9]/g, '')` (applied after
lowercasing). -/
def isLowerAlnum (c : Char) : Bool :=
  ('a' ≤ c ∧ c ≤ 'z') ∨ ('0' ≤ c ∧ c ≤ '9')

/-- The base-subdomain computation of `generateUniqueSubdomain`: a truthy
`baseName` is lowercased, stripped of non-alphanumerics and cut to 20
characters; a falsy one falls back to `` `tunnel-${userId.substring(0, 8)}` ``. -/
def subdomainBase (baseName : String) (userId : String) : String :=
  if baseName = "" then "tunnel-" ++ String.mk (userId.data.take 8)
  else String.mk (((baseName.data.map charToLower).filter isLowerAlnum).take 20)

/-- The `while (true)` loop of `generateUniqueSubdomain`, with the database
occupancy abstracted as the predicate `taken` and `Date.now()` as `nowMs`.
Each pass returns the current candidate if it is free; otherwise the next
candidate is `` `${base}-${counter}` `` and the counter advances, bailing out
to the time-based `` `${base}-${nowMs}` `` once the counter exceeds 100.  The
counter reaches at most 101, so fuel 101 makes the fuel-0 branch unreachable
(it repeats the time-based bail-out). -/
def generateLoop (taken : String → Bool) (base : String) (nowMs : Nat) :
    Nat → Nat → String → String
  | 0, _, _ => base ++ "-" ++ toString nowMs
  | fuel + 1, counter, subdomain =>
      if taken subdomain = false then subdomain
      else
        let next := base ++ "-" ++ toString counter
        if counter + 1 > 100 then base ++ "-" ++ toString nowMs
        else generateLoop taken base nowMs fuel (counter + 1) next

/-- `generateUniqueSubdomain(baseName, userId)` against occupancy `taken`. -/
def generateUniqueSubdomain (taken : String → Bool) (baseName userId : String)
    (nowMs : Nat) : String :=
  let base := subdomainBase baseName userId
  generateLoop taken base nowMs 101 1 base

/-- Outcome of the tunnel-registration database block: either the tunnel is
upserted with a final subdomain and a `registered` frame is sent, or an error
frame is sent and the transport is closed with the given code. -/
inductive RegisterOutcome where
  | registered (finalSubdomain : String)
  | closed (code : Nat)
  deriving Repr, DecidableEq

/-- Subdomain resolution inside the `register` handler's inner try/catch.
`desiredSubdomain` is `subdomain || wsTunnelId` and is declared `const`.
When another tunnel owns the desired subdomain (`findFirst` with
`id: not wsTunnelId`), the handler computes `finalSubdomain` (the explicit
subdomain again when one was supplied, else `generateUniqueSubdomain` of
`` tunnelName || `tunnel-${wsTunnelId.substring(0, 8)}` ``) and then executes
`desiredSubdomain = finalSubdomain`: in an ES module assigning to a `const`
throws a TypeError, which the surrounding `catch (dbError)` turns into an
error frame and `ws.close(4003, 'Database registration failed')`.  Without a
conflict the upsert proceeds with the desired subdomain. -/
def registerSubdomainFlow (explicitSubdomain : Option String) (wsTunnelId : String)
    (tunnelName : Option String) (userId : String) (db : List TunnelRecord)
    (nowMs : Nat) : RegisterOutcome :=
  let desiredSubdomain := match explicitSubdomain with
    | some s => s
    | none => wsTunnelId
  match findFirstTunnel
      (fun t => t.subdomain = desiredSubdomain ∧ t.id ≠ wsTunnelId) db with
  | some _ =>
      let _finalSubdomain := match explicitSubdomain with
        | some s => s
        | none =>
            generateUniqueSubdomain (fun s => (findFirstTunnel (fun t => t.subdomain = s) db).isSome)
              ((tunnelName.getD ("tunnel-" ++ String.mk (wsTunnelId.data.take 8))))
              userId nowMs
      RegisterOutcome.closed 4003
  | none => RegisterOutcome.registered desiredSubdomain

/-! ### Telemetry finalization (`storeRespData`) and the timeout path -/

/-- The in-flight entry stored by `storeReqData` in `activeRequests`. -/
structure ActiveRequest where
  startTime : Nat
  tunnelId : String
  path : String
  method : String
  clientIp : String
  requestSize : Nat
  deriving Repr, DecidableEq

/-- The telemetry-relevant server state: the correlation map, the in-flight
map, the metrics buffer, the unique-IP helper map, the per-request log rows
and the `LiveStats` table. -/
structure ServerTelemetry where
  pendingResponses : List (String × Nat)
  activeRequests : List (String × ActiveRequest)
  metricsBuffer : List Metric
  uniqueIps : List (String × List String)
  requestLog : List Metric
  liveStats : List (String × LiveStatsRow)
  deriving Repr, DecidableEq

/-- The metric record `storeRespData` builds from the captured in-flight
entry, the response data, the resolved country and `new Date()`. -/
def buildMetric (d : ActiveRequest) (statusCode responseTime responseSize : Nat)
    (country : Option String) (now : Nat) : Metric :=
  { tunnelId := d.tunnelId
    path := d.path
    method := d.method
    country := country
    statusCode := statusCode
    responseTime := responseTime
    requestSize := d.requestSize
    responseSize := responseSize
    clientIp := d.clientIp
    timestamp := now }

/-- Record a client IP in the unique-IP helper map
(`uniqueIpsBuffer.get(tunnelId).add(clientIp)`, creating the set first). -/
def addIp (m : List (String × List String)) (tunnelId ip : String) :
    List (String × List String) :=
  match alookup m tunnelId with
  | none => aset m tunnelId [ip]
  | some ips => aset m tunnelId (if ip ∈ ips then ips else ips ++ [ip])

/-- The remainder of `storeRespData` once the in-flight entry `d` has been
captured: build the metric, push it on the buffer, record the unique IP,
upsert `LiveStats`, insert the `RequestLog` row, and finally
`activeRequests.delete(requestId)`.  (The `length >= 100` flush trigger
launches `processMetricsBuffer` asynchronously; the flush itself is the
separate `processMetricsBuffer` above, and the states considered by the
theorems keep the buffer below the threshold.) -/
def storeRespDataResume (s : ServerTelemetry) (requestId : String)
    (d : ActiveRequest) (statusCode responseTime responseSize : Nat)
    (country : Option String) (now : Nat) : ServerTelemetry :=
  let metric := buildMetric d statusCode responseTime responseSize country now
  { s with
    metricsBuffer := s.metricsBuffer ++ [metric]
    uniqueIps := addIp s.uniqueIps d.tunnelId d.clientIp
    liveStats := aset s.liveStats d.tunnelId
      (updateLiveStats (alookup s.liveStats d.tunnelId) d.tunnelId metric now)
    requestLog := s.requestLog ++ [metric]
    activeRequests := adelete s.activeRequests requestId }

/-- A complete `storeRespData(requestId, statusCode, responseTime,
responseSize)` call running without interleaving: return immediately when no
in-flight entry exists, otherwise run the remainder. -/
def storeRespData (s : ServerTelemetry) (requestId : String)
    (statusCode responseTime responseSize : Nat) (country : Option String)
    (now : Nat) : ServerTelemetry :=
  match alookup s.activeRequests requestId with
  | none => s
  | some d => storeRespDataResume s requestId d statusCode responseTime responseSize country now

/-- The 10 s timer callback for a forwarded request together with the
`res.send` chain it triggers, in JavaScript event-loop order.  The callback
guard checks `pendingResponses.has(requestId)`.  It then calls
`storeRespData(analyticsId, 504, now - startTime, 0)`, whose synchronous
prefix reads — but does not yet delete — the in-flight entry before
suspending at `await getCountryFromIP`.  Still synchronously, the callback
runs `res.status(504).send('Request timed out')`: the `status` patch sets the
captured status code to 504 and the `send` patch installed by `storeReqData`
invokes `storeRespData` a second time with the same `analyticsId`
(response size: the 16 UTF-8 bytes of the body), whose own synchronous prefix
still finds the in-flight entry since the first call's deletion sits after
its awaits.  The callback deletes the correlation entry and returns; the two
suspended calls then resume in order and each completes.  `country1`,
`country2`, `now1`, `now2` are the two country-lookup results and resume
times. -/
def timeoutExpiry (s : ServerTelemetry) (requestId analyticsId : String)
    (nowFire : Nat) (country1 country2 : Option String) (now1 now2 : Nat) :
    ServerTelemetry :=
  if (alookup s.pendingResponses requestId).isSome then
    match alookup s.activeRequests analyticsId with
    | some d =>
        let rt := nowFire - d.startTime
        let s1 := { s with pendingResponses := adelete s.pendingResponses requestId }
        let s2 := storeRespDataResume s1 analyticsId d 504 rt 0 country1 now1
        storeRespDataResume s2 analyticsId d 504 rt 16 country2 now2
    | none =>
        { s with pendingResponses := adelete s.pendingResponses requestId }
  else s

/-! ### Association-list lemmas -/

theorem alookup_aset_self {α : Type} (l : List (String × α)) (k : String) (v : α) :
    alookup (aset l k v) k = some v := by
  induction l with
  | nil => simp [aset, alookup]
  | cons hd t ih =>
      obtain ⟨k2, v2⟩ := hd
      by_cases hk : k2 = k <;> simp [aset, alookup, hk, ih]

theorem alookup_isSome_iff {α : Type} (l : List (String × α)) (k : String) :
    (alookup l k).isSome = true ↔ k ∈ l.map Prod.fst := by
  induction l with
  | nil => simp [alookup]
  | cons hd t ih =>
      obtain ⟨k2, v2⟩ := hd
      by_cases hk : k2 = k
      · subst hk; simp [alookup]
      · simp [alookup, hk, ih, Ne.symm hk]

theorem alookup_eq_none_iff {α : Type} (l : List (String × α)) (k : String) :
    alookup l k = none ↔ k ∉ l.map Prod.fst := by
  rw [← alookup_isSome_iff]
  cases alookup l k <;> simp

theorem aset_keys_of_mem {α : Type} {l : List (String × α)} {k : String} (v : α)
    (h : k ∈ l.map Prod.fst) : (aset l k v).map Prod.fst = l.map Prod.fst := by
  induction l with
  | nil => simp at h
  | cons hd t ih =>
      obtain ⟨k2, v2⟩ := hd
      by_cases hk : k2 = k
      · simp [aset, hk]
      · simp only [List.map_cons] at h
        rcases List.mem_cons.mp h with h2 | h2
        · exact absurd h2.symm hk
        · simp [aset, hk, ih h2]

theorem aset_keys_of_not_mem {α : Type} {l : List (String × α)} {k : String} (v : α)
    (h : k ∉ l.map Prod.fst) : (aset l k v).map Prod.fst = l.map Prod.fst ++ [k] := by
  induction l with
  | nil => simp [aset]
  | cons hd t ih =>
      obtain ⟨k2, v2⟩ := hd
      simp only [List.map_cons, List.mem_cons] at h
      push_neg at h
      simp [aset, Ne.symm h.1, ih h.2]

theorem adelete_keys_sublist {α : Type} (l : List (String × α)) (k : String) :
    ((adelete l k).map Prod.fst).Sublist (l.map Prod.fst) := by
  induction l with
  | nil => simp [adelete]
  | cons hd t ih =>
      obtain ⟨k2, v2⟩ := hd
      by_cases hk : k2 = k
      · simp [adelete, hk, List.sublist_cons_of_sublist k2 (List.Sublist.refl _)]
      · simpa [adelete, hk] using List.Sublist.cons₂ k2 ih

theorem alookup_adelete_self {α : Type} {l : List (String × α)} {k : String}
    (h : (l.map Prod.fst).Nodup) : alookup (adelete l k) k = none := by
  induction l with
  | nil => simp [adelete, alookup]
  | cons hd t ih =>
      obtain ⟨k2, v2⟩ := hd
      simp only [List.map_cons, List.nodup_cons] at h
      by_cases hk : k2 = k
      · subst hk
        simp only [adelete, if_pos rfl]
        exact (alookup_eq_none_iff t k2).2 h.1
      · simp [adelete, alookup, hk, ih h.2]

theorem adelete_keys_nodup {α : Type} {l : List (String × α)} (k : String)
    (h : (l.map Prod.fst).Nodup) : ((adelete l k).map Prod.fst).Nodup :=
  (adelete_keys_sublist l k).nodup h

/-! ### Claim theorems -/

/-- Initial registry state for the duplicate-registration trace: session 1
holds tunnel `t1`, the tunnel row is active, nothing else is going on. -/
def dupTrace0 : RegistryState :=
  { agents := [("t1", 1)]
    tunnelActive := [("t1", true)]
    pendingResponses := []
    fulfilled := []
    closes := [] }

/-- Registry state right after session 2 successfully registers `t1`. -/
def dupTrace1 : RegistryState := registerStep dupTrace0 2 "t1"

/-- Registry state after the evicted session 1's `close` event is delivered
and its close handler runs. -/
def dupTrace2 : RegistryState := closeStep dupTrace1 "t1"

/-- C1: duplicate registration at the failing trace.  The first half of the
claim holds right after the `register` succeeds — session 1 was closed with
code 4002, removed, and the registry holds session 2 — but when the evicted
session's own `close` event is then handled, the close handler deletes the
registry entry for `t1` (evicting the *new* session 2) and marks the tunnel
inactive, because it never checks that the closing socket is still the
registered one.  This contradicts the claim's "from then on the registry map
holds the new session" and the spec's duplicate-registration scenario
("the registry holds S2"). -/
theorem duplicate_registration_close_bug :
    dupTrace1.closes = [(1, 4002)]
    ∧ alookup dupTrace1.agents "t1" = some 2
    ∧ alookup dupTrace1.tunnelActive "t1" = some true
    ∧ alookup dupTrace2.agents "t1" = none
    ∧ alookup dupTrace2.tunnelActive "t1" = some false := by
  refine ⟨rfl, rfl, rfl, rfl, rfl⟩

/-- Registry state with one live session for `t1` and one outstanding
responder `r1` (handle 9) registered while a request is in flight. -/
def closeTrace0 : RegistryState :=
  { agents := [("t1", 2)]
    tunnelActive := [("t1", true)]
    pendingResponses := [("r1", 9)]
    fulfilled := []
    closes := [] }

/-- C2 counterexample: the agent session for `t1` closes while responder `r1`
is outstanding, yet the close handler neither fulfils it with 502 nor
unregisters it — the correlation map still holds `r1` and nothing has been
written to any responder. -/
theorem close_fulfils_no_responder :
    (closeStep closeTrace0 "t1").pendingResponses = [("r1", 9)]
    ∧ (closeStep closeTrace0 "t1").fulfilled = []
    ∧ alookup (closeStep closeTrace0 "t1").pendingResponses "r1" = some 9 := by
  refine ⟨rfl, rfl, rfl⟩

/-- C2 amended: the agent-session close handler performs no responder
handling at all — it leaves the correlation map and the fulfilment log of any
state completely unchanged (outstanding responders are fulfilled only later,
by their own 10 s timeouts, with 504). -/
theorem close_leaves_responders (s : RegistryState) (tid : String) :
    (closeStep s tid).pendingResponses = s.pendingResponses
    ∧ (closeStep s tid).fulfilled = s.fulfilled := by
  exact ⟨rfl, rfl⟩

/-- The metric of the C3 failing input: a request to tunnel `abc` finalized
at 2025-06-18T10:30:00.000Z. -/
def mJune : Metric :=
  { tunnelId := "abc"
    path := "/a"
    method := "GET"
    country := some "LOCAL"
    statusCode := 200
    responseTime := 100
    requestSize := 0
    responseSize := 4
    clientIp := "1.2.3.4"
    timestamp := 1750242600000 }

/-- C3: the flush does group the metric under the key built from its
tunnel id and its UTC-truncated hour, but `updateHourlyStats` recovers the
hour from that key with `hourKey.split('-', 2)`, which cuts the key after the
second dash-separated token: the hour string degenerates to `"2025"` and the
row's `hour` becomes `new Date("2025")` = 2025-01-01T00:00:00Z instead of the
metric's truncated hour 2025-06-18T10:00:00Z. -/
theorem hourly_hour_mismatch :
    groupMetrics [mJune] = [("abc-2025-06-18T10:00:00.000Z", [mJune])]
    ∧ truncToHour mJune.timestamp = 1750240800000
    ∧ toISOString 1750240800000 = "2025-06-18T10:00:00.000Z"
    ∧ jsSplit "abc-2025-06-18T10:00:00.000Z" '-' 2 = ["abc", "2025"]
    ∧ (updateHourlyStats "abc-2025-06-18T10:00:00.000Z" [mJune]).hour = some 1735689600000
    ∧ toISOString 1735689600000 = "2025-01-01T00:00:00.000Z"
    ∧ (updateHourlyStats "abc-2025-06-18T10:00:00.000Z" [mJune]).hour
        ≠ some (truncToHour mJune.timestamp) := by
  refine ⟨rfl, rfl, rfl, rfl, rfl, rfl, by decide⟩

/-- A database in which another tunnel (`other`) already owns the subdomain
`t1`. -/
def conflictDb : List TunnelRecord :=
  [{ id := "other", name := "Other", subdomain := "t1", isActive := true
     lastConnected := none, lastDisconnected := none }]

/-- C4: subdomain resolution at the failing input.  The conflict branch with
an explicit subdomain does close the transport with 4003 and a conflict-free
registration succeeds with the desired subdomain, as the claim states — but
in the conflict branch *without* an explicit subdomain, where the claim says
registration succeeds with the generated unique variant, the handler's
assignment to the `const desiredSubdomain` throws a TypeError that is caught
by `catch (dbError)` and also closes the transport with 4003; the correctly
computed variant (last two conjuncts show `generateUniqueSubdomain` honours
the lowercase/strip/20-chars, `-<n>`-suffix and time-based rules) is never
used. -/
theorem subdomain_const_assignment_bug :
    registerSubdomainFlow (some "t1") "t2" none "u1" conflictDb 999
      = RegisterOutcome.closed 4003
    ∧ registerSubdomainFlow none "t9" none "u1" conflictDb 999
      = RegisterOutcome.registered "t9"
    ∧ registerSubdomainFlow none "t1" (some "My App!") "u1" conflictDb 999
      = RegisterOutcome.closed 4003
    ∧ generateUniqueSubdomain (fun s => s = "myapp") "My App!" "u1" 999 = "myapp-1"
    ∧ generateUniqueSubdomain (fun _ => true) "My App!" "u1" 999 = "myapp-999" := by
  refine ⟨rfl, rfl, rfl, by decide, by decide⟩

/-- A metric for tunnel `ta` whose hourly upsert the database will reject in
the C6 counterexample. -/
def mFailA : Metric :=
  { tunnelId := "ta"
    path := "/x"
    method := "GET"
    country := some "US"
    statusCode := 200
    responseTime := 50
    requestSize := 1
    responseSize := 2
    clientIp := "8.8.8.8"
    timestamp := 1750242600000 }

/-- A metric for tunnel `tb` whose hourly upsert succeeds in the C6
counterexample. -/
def mOkB : Metric :=
  { tunnelId := "tb"
    path := "/y"
    method := "POST"
    country := some "DE"
    statusCode := 500
    responseTime := 80
    requestSize := 3
    responseSize := 4
    clientIp := "9.9.9.9"
    timestamp := 1750242600000 }

/-- C6 counterexample: a flush in which tunnel `ta`'s group fails its
database write and tunnel `tb`'s succeeds still clears the whole buffer and
the unique-IP helper map — the failed group's metric is *not* retained for a
later flush, contradicting the claim. -/
theorem flush_drops_failed_group :
    ((processMetricsBuffer [mFailA, mOkB] [("ta", ["8.8.8.8"])]
        (fun k => k = "tb-2025-06-18T10:00:00.000Z")).upserts.map
          fun u => (u.1.tunnelId, u.2)) = [("ta", false), ("tb", true)]
    ∧ (processMetricsBuffer [mFailA, mOkB] [("ta", ["8.8.8.8"])]
        (fun k => k = "tb-2025-06-18T10:00:00.000Z")).buffer = []
    ∧ (processMetricsBuffer [mFailA, mOkB] [("ta", ["8.8.8.8"])]
        (fun k => k = "tb-2025-06-18T10:00:00.000Z")).uniqueIps = []
    ∧ mFailA ∉ (processMetricsBuffer [mFailA, mOkB] [("ta", ["8.8.8.8"])]
        (fun k => k = "tb-2025-06-18T10:00:00.000Z")).buffer := by
  refine ⟨by decide, by decide, by decide, by decide⟩

/-- C6 amended: after every flush the buffer is empty, and for a nonempty
buffer the unique-IP helper map is cleared as well — unconditionally, no
matter which per-group database writes failed (each group's upsert is still
attempted; its failure is swallowed inside `updateHourlyStats`). -/
theorem flush_clears_unconditionally (buffer : List Metric)
    (uniq : List (String × List String)) (dbOk : String → Bool) :
    (processMetricsBuffer buffer uniq dbOk).buffer = []
    ∧ (buffer ≠ [] →
        (processMetricsBuffer buffer uniq dbOk).uniqueIps = []
        ∧ (processMetricsBuffer buffer uniq dbOk).upserts
            = (groupMetrics buffer).map fun g => (updateHourlyStats g.1 g.2, dbOk g.1)) := by
  by_cases h : buffer = []
  · subst h
    exact ⟨rfl, fun hne => absurd rfl hne⟩
  · refine ⟨?_, fun _ => ⟨?_, ?_⟩⟩ <;> simp [processMetricsBuffer, h]

/-- Witness for the amended C6 theorem at a one-metric buffer whose only
upsert fails. -/
theorem flush_clears_unconditionally_witness :
    ([mFailA] ≠ ([] : List Metric))
    ∧ (processMetricsBuffer [mFailA] [("ta", ["8.8.8.8"])] (fun _ => false)).buffer = []
    ∧ (processMetricsBuffer [mFailA] [("ta", ["8.8.8.8"])] (fun _ => false)).uniqueIps = [] := by
  have h := flush_clears_unconditionally [mFailA] [("ta", ["8.8.8.8"])] (fun _ => false)
  exact ⟨by decide, h.1, (h.2 (by decide)).1⟩

/-- C8: the `LiveStats` upsert semantics.  On the update branch both request
counters grow by exactly one, `avgResponseTime` is overwritten (last-wins)
with the metric's response time, `errorRate` grows by one exactly when the
status code is an error (≥ 400) and is unchanged otherwise, and `lastUpdated`
is stamped with the current time; the create branch starts the counters at 1
with `errorRate` 1 or 0 accordingly. -/
theorem live_stats_semantics (r : LiveStatsRow) (tid : String) (m : Metric)
    (now : Nat) :
    (updateLiveStats (some r) tid m now).requestsLast5Min = r.requestsLast5Min + 1
    ∧ (updateLiveStats (some r) tid m now).requestsLast1Hour = r.requestsLast1Hour + 1
    ∧ (updateLiveStats (some r) tid m now).avgResponseTime = m.responseTime
    ∧ ((updateLiveStats (some r) tid m now).errorRate = r.errorRate + 1 ↔ 400 ≤ m.statusCode)
    ∧ (m.statusCode < 400 → (updateLiveStats (some r) tid m now).errorRate = r.errorRate)
    ∧ (updateLiveStats (some r) tid m now).lastUpdated = now
    ∧ updateLiveStats none tid m now
        = { tunnelId := tid
            requestsLast5Min := 1
            requestsLast1Hour := 1
            avgResponseTime := m.responseTime
            errorRate := if 400 ≤ m.statusCode then 1 else 0
            lastUpdated := now } := by
  by_cases h : 400 ≤ m.statusCode
  · simp [updateLiveStats, h, Nat.not_lt.mpr h]
  · simp [updateLiveStats, h, Nat.lt_of_not_le h]

/-- Witness for the C8 theorem: a concrete row and a 200-status metric,
exercising the error-free update branch. -/
theorem live_stats_semantics_witness :
    (updateLiveStats (some ⟨"t1", 3, 7, 120, 2, 50⟩) "t1" mJune 60).requestsLast5Min = 4
    ∧ (updateLiveStats (some ⟨"t1", 3, 7, 120, 2, 50⟩) "t1" mJune 60).errorRate = 2 := by
  have h := live_stats_semantics ⟨"t1", 3, 7, 120, 2, 50⟩ "t1" mJune 60
  exact ⟨h.1, h.2.2.2.2.1 (by decide)⟩

/-! ### Top-k lemmas (sorting and counting) -/

theorem mem_insertDesc {x z : String × Nat} {l : List (String × Nat)} :
    z ∈ insertDesc x l ↔ z = x ∨ z ∈ l := by
  induction l with
  | nil => simp [insertDesc]
  | cons y ys ih =>
      by_cases h : x.2 ≤ y.2
      · simp only [insertDesc, if_pos h, List.mem_cons, ih]
        tauto
      · simp only [insertDesc, if_neg h, List.mem_cons]

theorem pairwise_insertDesc {x : String × Nat} {l : List (String × Nat)}
    (h : l.Pairwise fun a b => b.2 ≤ a.2) :
    (insertDesc x l).Pairwise fun a b => b.2 ≤ a.2 := by
  induction l with
  | nil => simp [insertDesc]
  | cons y ys ih =>
      rcases List.pairwise_cons.mp h with ⟨hy, hys⟩
      by_cases hx : x.2 ≤ y.2
      · rw [insertDesc, if_pos hx]
        refine List.pairwise_cons.mpr ⟨?_, ih hys⟩
        intro z hz
        rcases mem_insertDesc.mp hz with rfl | hz2
        · exact hx
        · exact hy z hz2
      · rw [insertDesc, if_neg hx]
        refine List.pairwise_cons.mpr ⟨?_, h⟩
        intro z hz
        rcases List.mem_cons.mp hz with rfl | hz2
        · exact Nat.le_of_lt (Nat.lt_of_not_le hx)
        · exact le_trans (hy z hz2) (Nat.le_of_lt (Nat.lt_of_not_le hx))

theorem pairwise_sortDesc (l : List (String × Nat)) :
    (sortDesc l).Pairwise fun a b => b.2 ≤ a.2 := by
  induction l with
  | nil => simp [sortDesc]
  | cons x xs ih => exact pairwise_insertDesc ih

theorem mem_sortDesc {z : String × Nat} {l : List (String × Nat)} :
    z ∈ sortDesc l ↔ z ∈ l := by
  induction l with
  | nil => simp [sortDesc]
  | cons x xs ih => simp [sortDesc, mem_insertDesc, ih]

theorem countStep_keys (acc : List (String × Nat)) (k : String) :
    (countStep acc k).map Prod.fst
      = if k ∈ acc.map Prod.fst then acc.map Prod.fst
        else acc.map Prod.fst ++ [k] := by
  unfold countStep
  cases hl : alookup acc k with
  | none =>
      have hk : k ∉ acc.map Prod.fst := (alookup_eq_none_iff acc k).1 hl
      rw [aset_keys_of_not_mem _ hk, if_neg hk]
  | some n =>
      have hk : k ∈ acc.map Prod.fst := by
        rw [← alookup_isSome_iff, hl]; rfl
      rw [aset_keys_of_mem _ hk, if_pos hk]

theorem countStep_keys_nodup {acc : List (String × Nat)} (k : String)
    (h : (acc.map Prod.fst).Nodup) : ((countStep acc k).map Prod.fst).Nodup := by
  rw [countStep_keys]
  by_cases hk : k ∈ acc.map Prod.fst
  · rwa [if_pos hk]
  · rw [if_neg hk]
    simp only [List.nodup_append, List.nodup_cons, List.not_mem_nil,
      not_false_iff, List.nodup_nil, and_true, true_and]
    exact ⟨h, by simpa using hk⟩

theorem mem_countStep_keys (acc : List (String × Nat)) (k x : String) :
    x ∈ (countStep acc k).map Prod.fst ↔ x ∈ acc.map Prod.fst ∨ x = k := by
  rw [countStep_keys]
  by_cases hk : k ∈ acc.map Prod.fst
  · rw [if_pos hk]
    constructor
    · exact Or.inl
    · rintro (h | rfl)
      · exact h
      · exact hk
  · rw [if_neg hk]
    simp

theorem mem_foldl_countStep (keys : List String) (acc : List (String × Nat))
    (x : String) :
    x ∈ (keys.foldl countStep acc).map Prod.fst
      ↔ x ∈ acc.map Prod.fst ∨ x ∈ keys := by
  induction keys generalizing acc with
  | nil => simp
  | cons k ks ih =>
      rw [List.foldl_cons, ih, mem_countStep_keys]
      simp only [List.mem_cons]
      tauto

theorem nodup_foldl_countStep (keys : List String) (acc : List (String × Nat))
    (h : (acc.map Prod.fst).Nodup) :
    ((keys.foldl countStep acc).map Prod.fst).Nodup := by
  induction keys generalizing acc with
  | nil => exact h
  | cons k ks ih => exact ih _ (countStep_keys_nodup k h)

theorem mem_countBy_keys (keys : List String) (x : String) :
    x ∈ (countBy keys).map Prod.fst ↔ x ∈ keys := by
  rw [countBy, mem_foldl_countStep]
  simp

theorem countBy_keys_nodup (keys : List String) :
    ((countBy keys).map Prod.fst).Nodup :=
  nodup_foldl_countStep keys [] (by simp)

/-- C7 counterexample metrics: eleven metrics of tunnel `tc` in one UTC hour
with eleven distinct status codes. -/
def mCode (c : Nat) : Metric :=
  { tunnelId := "tc"
    path := "/p"
    method := "GET"
    country := some "US"
    statusCode := c
    responseTime := 10
    requestSize := 0
    responseSize := 0
    clientIp := "8.8.8.8"
    timestamp := 1750242600000 }

/-- Eleven metrics with pairwise-distinct status codes. -/
def elevenCodes : List Metric :=
  [mCode 200, mCode 201, mCode 202, mCode 203, mCode 204, mCode 205,
   mCode 206, mCode 207, mCode 400, mCode 404, mCode 500]

/-- C7 counterexample: the flush of eleven same-hour metrics with eleven
distinct status codes produces a single `HourlyStats` upsert whose
`statusCodes` mapping has eleven entries — the source builds it with
`Object.fromEntries(statusCounts)` and never applies the `slice(0, 10)` that
bounds `topPaths` and `topCountries`. -/
theorem statusCodes_exceed_ten :
    ((processMetricsBuffer elevenCodes [] fun _ => true).upserts.map
        fun u => u.1.statusCodes.length) = [11]
    ∧ ¬ (11 ≤ 10) := by
  refine ⟨by decide, by decide⟩

/-- C7 amended: in every `HourlyStats` upsert produced by `updateHourlyStats`,
`topPaths` and `topCountries` have at most 10 entries and are ordered
descending by count, metrics whose country is null (or falsy) are skipped
when building `topCountries`, and `statusCodes` holds exactly one entry per
distinct status code of the group — with no 10-entry bound. -/
theorem topk_wellformed (hourKey : String) (metrics : List Metric) :
    (updateHourlyStats hourKey metrics).topPaths.length ≤ 10
    ∧ (updateHourlyStats hourKey metrics).topCountries.length ≤ 10
    ∧ (updateHourlyStats hourKey metrics).topPaths.Pairwise (fun a b => b.2 ≤ a.2)
    ∧ (updateHourlyStats hourKey metrics).topCountries.Pairwise (fun a b => b.2 ≤ a.2)
    ∧ (∀ c n, (c, n) ∈ (updateHourlyStats hourKey metrics).topCountries →
        ∃ m, m ∈ metrics ∧ m.country = some c)
    ∧ (∀ c, c ∈ (updateHourlyStats hourKey metrics).statusCodes.map Prod.fst
        ↔ ∃ m, m ∈ metrics ∧ toString m.statusCode = c)
    ∧ ((updateHourlyStats hourKey metrics).statusCodes.map Prod.fst).Nodup := by
  refine ⟨?_, ?_, ?_, ?_, ?_, ?_, ?_⟩
  · exact List.length_take_le 10 _
  · exact List.length_take_le 10 _
  · exact (pairwise_sortDesc _).sublist (List.take_sublist 10 _)
  · exact (pairwise_sortDesc _).sublist (List.take_sublist 10 _)
  · intro c n hmem
    have h1 : (c, n) ∈ sortDesc (countBy (metrics.filterMap countryKey)) :=
      (List.take_sublist 10 _).subset hmem
    have h2 : c ∈ (countBy (metrics.filterMap countryKey)).map Prod.fst :=
      List.mem_map_of_mem Prod.fst (mem_sortDesc.mp h1)
    have h3 : c ∈ metrics.filterMap countryKey := (mem_countBy_keys _ c).1 h2
    rcases List.mem_filterMap.mp h3 with ⟨m, hm, hck⟩
    refine ⟨m, hm, ?_⟩
    cases hc : m.country with
    | none => simp [countryKey, hc] at hck
    | some c2 =>
        have hck2 : (if c2 = "" then none else some c2) = some c := by
          simpa [countryKey, hc] using hck
        by_cases h0 : c2 = ""
        · rw [if_pos h0] at hck2; cases hck2
        · rw [if_neg h0] at hck2
          exact hck2
  · intro c
    show c ∈ (countBy (metrics.map fun m => toString m.statusCode)).map Prod.fst ↔ _
    rw [mem_countBy_keys]
    simp
  · exact countBy_keys_nodup _

/-- Witness for the amended C7 theorem at a small concrete group. -/
theorem topk_wellformed_witness :
    (updateHourlyStats "tc-2025-06-18T10:00:00.000Z" [mCode 200, mCode 500]).topPaths.length ≤ 10
    ∧ ("200" ∈ (updateHourlyStats "tc-2025-06-18T10:00:00.000Z"
          [mCode 200, mCode 500]).statusCodes.map Prod.fst
        ↔ ∃ m, m ∈ [mCode 200, mCode 500] ∧ toString m.statusCode = "200") := by
  have h := topk_wellformed "tc-2025-06-18T10:00:00.000Z" [mCode 200, mCode 500]
  exact ⟨h.1, h.2.2.2.2.2.1 "200"⟩

/-- C9: front-end dispatch order and status codes.  A path with no nonempty
segments yields 400; otherwise the tunnel is resolved by subdomain first and
by id second (no match → 404); a matched inactive tunnel yields 503 with the
last-connected/last-disconnected timestamps in the body; an active tunnel
with no live session yields 502; only otherwise is the request forwarded. -/
theorem dispatch_order (db : List TunnelRecord) (agents : List (String × Nat))
    (p identifier : String) (rest : List String) :
    ((jsSplitAll p '/').filter (fun part => part ≠ "") = [] →
        dispatch db agents p = DispatchResult.badRequest)
    ∧ ((jsSplitAll p '/').filter (fun part => part ≠ "") = identifier :: rest →
        (getTunnelByIdentifier db identifier = none →
            dispatch db agents p = DispatchResult.tunnelNotFound)
        ∧ (∀ t, getTunnelByIdentifier db identifier = some t →
            (t.isActive = false →
                dispatch db agents p
                  = DispatchResult.tunnelInactive t.id t.name t.subdomain
                      t.lastConnected t.lastDisconnected)
            ∧ (t.isActive = true → alookup agents t.id = none →
                dispatch db agents p = DispatchResult.tunnelNotConnected)
            ∧ (∀ sid, t.isActive = true → alookup agents t.id = some sid →
                dispatch db agents p
                  = DispatchResult.forwarded t.id ("/" ++ joinSlash rest))))
    ∧ (∀ t, findFirstTunnel (fun t2 => t2.subdomain = identifier) db = some t →
        getTunnelByIdentifier db identifier = some t)
    ∧ (findFirstTunnel (fun t2 => t2.subdomain = identifier) db = none →
        getTunnelByIdentifier db identifier
          = findFirstTunnel (fun t2 => t2.id = identifier) db) := by
  refine ⟨?_, ?_, ?_, ?_⟩
  · intro h
    simp only [dispatch, h]
  · intro h
    refine ⟨?_, ?_⟩
    · intro hn
      simp only [dispatch, h, hn]
    · intro t ht
      refine ⟨?_, ?_, ?_⟩
      · intro hin
        simp only [dispatch, h, ht, hin]
        simp
      · intro hact hag
        simp only [dispatch, h, ht, hact, hag]
        simp
      · intro sid hact hag
        simp only [dispatch, h, ht, hact, hag]
        simp
  · intro t hf
    simp only [getTunnelByIdentifier, hf]
  · intro hf
    simp only [getTunnelByIdentifier, hf]

/-- A concrete tunnel row for the C9 witness. -/
def wTunnel : TunnelRecord :=
  { id := "t1", name := "T1", subdomain := "sub1", isActive := true
    lastConnected := some 5, lastDisconnected := some 6 }

/-- Witness for the C9 theorem: a live tunnel forwards, and the root path is
a bad request. -/
theorem dispatch_order_witness :
    dispatch [wTunnel] [("t1", 7)] "/sub1/ping"
      = DispatchResult.forwarded "t1" ("/" ++ joinSlash ["ping"])
    ∧ dispatch [wTunnel] [("t1", 7)] "/" = DispatchResult.badRequest := by
  have h := dispatch_order [wTunnel] [("t1", 7)] "/sub1/ping" "sub1" ["ping"]
  have h2 := dispatch_order [wTunnel] [("t1", 7)] "/" "sub1" []
  refine ⟨((h.2.1 (by decide)).2 wTunnel (by decide)).2.2 7 (by decide) (by decide),
    h2.1 (by decide)⟩

/-! ### Multiplexer lemmas -/

theorem alookup_adelete_ne {α : Type} (l : List (String × α)) {k k2 : String}
    (h : k ≠ k2) : alookup (adelete l k) k2 = alookup l k2 := by
  induction l with
  | nil => rfl
  | cons hd t ih =>
      obtain ⟨kh, vh⟩ := hd
      by_cases hk : kh = k
      · subst hk
        simp [adelete, alookup, h]
      · by_cases hk2 : kh = k2 <;> simp [adelete, alookup, hk, hk2, ih, Ne.symm h]

theorem fulfilCount_append (rid r2 : String) (c : Nat) (log : List (String × Nat)) :
    fulfilCount rid (log ++ [(r2, c)])
      = fulfilCount rid log + (if r2 = rid then 1 else 0) := by
  unfold fulfilCount
  rw [List.filter_append]
  by_cases h : r2 = rid <;> simp [h]

/-- Preservation of the at-most-once invariant by a single multiplexer
event. -/
theorem muxStep_inv (rid : String) (s : MuxState) (e : MuxEvent)
    (h1 : (s.pending.map Prod.fst).Nodup)
    (h2 : fulfilCount rid s.fulfilled ≤ 1)
    (h3 : (alookup s.pending rid).isSome = true → fulfilCount rid s.fulfilled = 0) :
    ((muxStep s e).pending.map Prod.fst).Nodup
    ∧ fulfilCount rid (muxStep s e).fulfilled ≤ 1
    ∧ ((alookup (muxStep s e).pending rid).isSome = true →
        fulfilCount rid (muxStep s e).fulfilled = 0) := by
  have key : ∀ rid2 c, (alookup s.pending rid2).isSome = true →
      (((adelete s.pending rid2).map Prod.fst).Nodup
      ∧ fulfilCount rid (s.fulfilled ++ [(rid2, c)]) ≤ 1
      ∧ ((alookup (adelete s.pending rid2) rid).isSome = true →
          fulfilCount rid (s.fulfilled ++ [(rid2, c)]) = 0)) := by
    intro rid2 c hsome
    refine ⟨adelete_keys_nodup rid2 h1, ?_, ?_⟩
    · rw [fulfilCount_append]
      by_cases hr : rid2 = rid
      · subst hr
        rw [h3 hsome, if_pos rfl]
      · rw [if_neg hr]
        simpa using h2
    · intro hsome2
      by_cases hr : rid2 = rid
      · subst hr
        rw [alookup_adelete_self h1] at hsome2
        cases hsome2
      · rw [alookup_adelete_ne s.pending hr] at hsome2
        rw [fulfilCount_append, if_neg hr, h3 hsome2]
  cases e with
  | timeoutFire rid2 =>
      cases hl : alookup s.pending rid2 with
      | none => simpa [muxStep, hl] using ⟨h1, h2, h3⟩
      | some w =>
          have := key rid2 504 (by rw [hl]; rfl)
          simpa [muxStep, hl] using this
  | responseFrame rid2 status =>
      cases hl : alookup s.pending rid2 with
      | none => simpa [muxStep, hl] using ⟨h1, h2, h3⟩
      | some w =>
          have := key rid2 status (by rw [hl]; rfl)
          simpa [muxStep, hl] using this

/-- The at-most-once invariant holds along any event sequence. -/
theorem muxRun_inv (rid : String) (events : List MuxEvent) (s : MuxState)
    (h1 : (s.pending.map Prod.fst).Nodup)
    (h2 : fulfilCount rid s.fulfilled ≤ 1)
    (h3 : (alookup s.pending rid).isSome = true → fulfilCount rid s.fulfilled = 0) :
    fulfilCount rid (muxRun s events).fulfilled ≤ 1 := by
  induction events generalizing s with
  | nil => exact h2
  | cons e es ih =>
      rcases muxStep_inv rid s e h1 h2 h3 with ⟨g1, g2, g3⟩
      exact ih (muxStep s e) g1 g2 g3

/-- C5: the per-request deadline semantics.  The timer is armed with the
10 000 ms literal; on expiry with the responder still registered it is
fulfilled with 504 and removed from the correlation map; a `response` frame
for an unregistered id leaves the state untouched (silently discarded); and
along any sequence of timer/response events a request id with no prior
fulfilment is fulfilled at most once. -/
theorem request_deadline_semantics (s : MuxState) (rid : String)
    (sid status : Nat) (events : List MuxEvent) :
    requestTimeoutMs = 10000
    ∧ (alookup s.pending rid = some sid →
        (muxStep s (MuxEvent.timeoutFire rid)).fulfilled = s.fulfilled ++ [(rid, 504)]
        ∧ (muxStep s (MuxEvent.timeoutFire rid)).pending = adelete s.pending rid
        ∧ ((s.pending.map Prod.fst).Nodup →
            alookup (muxStep s (MuxEvent.timeoutFire rid)).pending rid = none))
    ∧ (alookup s.pending rid = none →
        muxStep s (MuxEvent.responseFrame rid status) = s)
    ∧ ((s.pending.map Prod.fst).Nodup → fulfilCount rid s.fulfilled = 0 →
        fulfilCount rid (muxRun s events).fulfilled ≤ 1) := by
  refine ⟨rfl, ?_, ?_, ?_⟩
  · intro h
    refine ⟨by simp [muxStep, h], by simp [muxStep, h], ?_⟩
    intro hnd
    simp only [muxStep, h]
    exact alookup_adelete_self hnd
  · intro h
    simp [muxStep, h]
  · intro hnd h0
    exact muxRun_inv rid events s hnd (by simp [h0]) (fun _ => h0)

/-- Witness for the C5 theorem: one registered responder `r1` times out, and
a late response for it is discarded; `r1` is fulfilled exactly once. -/
theorem request_deadline_semantics_witness :
    (muxStep ⟨[("r1", 5)], []⟩ (MuxEvent.timeoutFire "r1")).fulfilled
      = [] ++ [("r1", 504)]
    ∧ muxStep ⟨[], [("r1", 504)]⟩ (MuxEvent.responseFrame "r1" 200)
      = ⟨[], [("r1", 504)]⟩
    ∧ fulfilCount "r1" (muxRun ⟨[("r1", 5)], []⟩
        [MuxEvent.timeoutFire "r1", MuxEvent.responseFrame "r1" 200]).fulfilled ≤ 1 := by
  have h := request_deadline_semantics ⟨[("r1", 5)], []⟩ "r1" 5 200
    [MuxEvent.timeoutFire "r1", MuxEvent.responseFrame "r1" 200]
  have h2 := request_deadline_semantics ⟨[], [("r1", 504)]⟩ "r1" 5 200 []
  exact ⟨(h.2.1 rfl).1, h2.2.2.1 rfl, h.2.2.2 (by decide) rfl⟩

/-! ### The double-telemetry path on timeout -/

/-- `requestsLast5Min` of an optional `LiveStats` row (0 when the row does
not exist yet, matching the counter a fresh create branch starts from). -/
def live5 : Option LiveStatsRow → Nat
  | none => 0
  | some r => r.requestsLast5Min

/-- `requestsLast1Hour` of an optional `LiveStats` row. -/
def live1h : Option LiveStatsRow → Nat
  | none => 0
  | some r => r.requestsLast1Hour

/-- C10: when the 10 s deadline of a forwarded request expires with the
responder still registered and the request still in flight, the timer
callback invokes `storeRespData` directly and again through the
monkey-patched `res.send` of the 504 body — both with the same telemetry id,
and both passing the in-flight check because the first invocation deletes the
entry only after its awaited country lookup.  Consequently exactly two metric
records for that single request are appended to the buffer and the tunnel's
`LiveStats` request counters grow by two. -/
theorem timeout_double_telemetry (s : ServerTelemetry) (rid aid : String)
    (w nowFire n1 n2 : Nat) (c1 c2 : Option String) (d : ActiveRequest)
    (hp : alookup s.pendingResponses rid = some w)
    (ha : alookup s.activeRequests aid = some d) :
    (timeoutExpiry s rid aid nowFire c1 c2 n1 n2).metricsBuffer
      = s.metricsBuffer
        ++ [buildMetric d 504 (nowFire - d.startTime) 0 c1 n1,
            buildMetric d 504 (nowFire - d.startTime) 16 c2 n2]
    ∧ live5 (alookup (timeoutExpiry s rid aid nowFire c1 c2 n1 n2).liveStats d.tunnelId)
        = live5 (alookup s.liveStats d.tunnelId) + 2
    ∧ live1h (alookup (timeoutExpiry s rid aid nowFire c1 c2 n1 n2).liveStats d.tunnelId)
        = live1h (alookup s.liveStats d.tunnelId) + 2 := by
  have hps : (alookup s.pendingResponses rid).isSome = true := by rw [hp]; rfl
  refine ⟨?_, ?_, ?_⟩
  · simp [timeoutExpiry, hps, ha, storeRespDataResume]
  · simp only [timeoutExpiry, hps, ha, if_true, storeRespDataResume, alookup_aset_self]
    cases h0 : alookup s.liveStats d.tunnelId <;>
      simp [updateLiveStats, live5, h0]
  · simp only [timeoutExpiry, hps, ha, if_true, storeRespDataResume, alookup_aset_self]
    cases h0 : alookup s.liveStats d.tunnelId <;>
      simp [updateLiveStats, live1h, h0]

/-- The in-flight entry of the C10 witness. -/
def wActive : ActiveRequest :=
  { startTime := 100, tunnelId := "t1", path := "/slow", method := "GET"
    clientIp := "8.8.8.8", requestSize := 5 }

/-- The server state of the C10 witness: responder `r1` registered, telemetry
id `a1` in flight, everything else empty. -/
def wTelemetry : ServerTelemetry :=
  { pendingResponses := [("r1", 3)]
    activeRequests := [("a1", wActive)]
    metricsBuffer := []
    uniqueIps := []
    requestLog := []
    liveStats := [] }

/-- Witness for the C10 theorem at the concrete timed-out request. -/
theorem timeout_double_telemetry_witness :
    (timeoutExpiry wTelemetry "r1" "a1" 1100 (some "US") (some "US") 1200 1300).metricsBuffer
      = [] ++ [buildMetric wActive 504 (1100 - wActive.startTime) 0 (some "US") 1200,
               buildMetric wActive 504 (1100 - wActive.startTime) 16 (some "US") 1300]
    ∧ live5 (alookup (timeoutExpiry wTelemetry "r1" "a1" 1100 (some "US") (some "US")
          1200 1300).liveStats wActive.tunnelId)
        = live5 (alookup wTelemetry.liveStats wActive.tunnelId) + 2 := by
  have h := timeout_double_telemetry wTelemetry "r1" "a1" 3 1100 1200 1300
    (some "US") (some "US") wActive rfl rfl
  exact ⟨h.1, h.2.1⟩

end Tunnel
